import Mathlib

/-!
Shallow embedding of `script.js` (client-side registration-form validation):
the SSN masking state machine (`formatSSN`), the pure rule set
(`validatePassword`, `validateDateOfBirth`, `validateSingleField`), the
submit-time validation (`validateForm`), the error aggregator
(`areAllRequiredFieldsFilled`, `updateErrorCounter`) and the per-field error
display (`showFieldError`).

JavaScript strings are modelled as `List Char` for values that are inspected
character by character, and as Lean `String` for the human-readable messages.
Character-class tests model the ASCII behaviour of the JS regexes (the only
characters the rules inspect); `toLowerCase` is modelled on the ASCII range.
Calendar dates are modelled at day granularity (year, month, day compared
lexicographically), abstracting time-of-day and timezone.
-/

/-- ASCII digit test: models the JS regex `/\d/` (and the `\d` classes). -/
def isDigitCh (c : Char) : Bool := decide (48 ≤ c.toNat ∧ c.toNat ≤ 57)

/-- Models the JS character class `[A-Z]`. -/
def isUpperCh (c : Char) : Bool := decide (65 ≤ c.toNat ∧ c.toNat ≤ 90)

/-- Models the JS character class `[a-z]`. -/
def isLowerCh (c : Char) : Bool := decide (97 ≤ c.toNat ∧ c.toNat ≤ 122)

/-- Models the JS character class `[A-Za-z]`. -/
def isAlphaCh (c : Char) : Bool := isUpperCh c || isLowerCh c

/-- ASCII portion of the JS regex class `\s`. -/
def isSpaceJS (c : Char) : Bool :=
  c == ' ' || c == '\t' || c == '\n' || c == '\r' || c.toNat == 11 || c.toNat == 12

/-- `String.prototype.toLowerCase` on the ASCII range, per character. -/
def jsToLowerCh (c : Char) : Char :=
  if isUpperCh c then Char.ofNat (c.toNat + 32) else c

/-- `String.prototype.toLowerCase` on a whole string. -/
def lowerStr (l : List Char) : List Char := l.map jsToLowerCh

/-- `needle` occurs at the start of `hay`. -/
def leadsWith : List Char → List Char → Bool
  | [], _ => true
  | _ :: _, [] => false
  | a :: s, b :: t => a == b && leadsWith s t

/-- `String.prototype.includes`: `needle` occurs somewhere in `hay`. -/
def jsIncludes (hay needle : List Char) : Bool :=
  match hay with
  | [] => needle.isEmpty
  | c :: t => leadsWith needle (c :: t) || jsIncludes t needle

/-- `String.prototype.trim` (ASCII whitespace). -/
def jsTrim (l : List Char) : List Char :=
  ((l.dropWhile isSpaceJS).reverse.dropWhile isSpaceJS).reverse

/-- The special characters accepted by the password rule, i.e. the JS class
``[!@#%^&*()\-_+=\/><.,`~]`` (backtick and quotes written via their codes). -/
def passwordSpecials : List Char :=
  ['!', '@', '#', '%', '^', '&', '*', '(', ')', '-', '_', '+', '=', '/', '>',
   '<', '.', ',', Char.ofNat 96, '~']

/-- Membership in the password special-character class. -/
def isSpecialCh (c : Char) : Bool := passwordSpecials.contains c

/-- The JS class `["']`: a double or single quote. -/
def isQuoteCh (c : Char) : Bool := c == Char.ofNat 34 || c == Char.ofNat 39

/-- `/[A-Z]/.test(password)` -/
def hasUpper (p : List Char) : Bool := p.any isUpperCh

/-- `/[a-z]/.test(password)` -/
def hasLower (p : List Char) : Bool := p.any isLowerCh

/-- `/[0-9]/.test(password)` -/
def hasDigit (p : List Char) : Bool := p.any isDigitCh

/-- Special-character test of the password rule. -/
def hasSpecial (p : List Char) : Bool := p.any isSpecialCh

/-- `/["']/.test(password)` -/
def hasQuote (p : List Char) : Bool := p.any isQuoteCh

/-- `validatePassword(password, userId, firstName, lastName)` from `script.js`:
collects every violated sub-rule, in source order. -/
def validatePassword (password userId firstName lastName : List Char) : List String :=
  (if password.length < 8 ∨ 30 < password.length then ["Must be 8-30 characters"] else []) ++
  (if hasUpper password = false then ["Must contain 1 uppercase letter"] else []) ++
  (if hasLower password = false then ["Must contain 1 lowercase letter"] else []) ++
  (if hasDigit password = false then ["Must contain 1 digit"] else []) ++
  (if hasSpecial password = false then ["Must contain 1 special character"] else []) ++
  (if hasQuote password = true then ["Cannot contain quotes"] else []) ++
  (if userId ≠ [] ∧ jsIncludes (lowerStr password) (lowerStr userId) = true then
    ["Cannot contain User ID"] else []) ++
  (if firstName ≠ [] ∧ jsIncludes (lowerStr password) (lowerStr firstName) = true then
    ["Cannot contain first name"] else []) ++
  (if lastName ≠ [] ∧ jsIncludes (lowerStr password) (lowerStr lastName) = true then
    ["Cannot contain last name"] else [])

/-- A calendar date, at day granularity. -/
structure CalDate where
  y : Nat
  m : Nat
  d : Nat
deriving DecidableEq

/-- Lexicographic strict order on calendar dates: models the JS `Date`
comparison at day granularity. -/
def dateLt (a b : CalDate) : Bool :=
  decide (a.y < b.y ∨ (a.y = b.y ∧ (a.m < b.m ∨ (a.m = b.m ∧ a.d < b.d))))

/-- `new Date(today.getFullYear() - 120, today.getMonth(), today.getDate())`:
the same calendar day 120 years earlier. -/
def age120 (today : CalDate) : CalDate := ⟨today.y - 120, today.m, today.d⟩

/-- `new Date(dob)` on the `YYYY-MM-DD` strings produced by a date input.
Out-of-range components give an Invalid Date in JS, modelled as `none`
(month lengths are approximated by 31 days). -/
def parseDate (s : List Char) : Option CalDate :=
  match s with
  | [y1, y2, y3, y4, h1, m1, m2, h2, d1, d2] =>
    if [y1, y2, y3, y4, m1, m2, d1, d2].all isDigitCh = true ∧ h1 = '-' ∧ h2 = '-' then
      let y := ((y1.toNat - 48) * 10 + (y2.toNat - 48)) * 100 +
               ((y3.toNat - 48) * 10 + (y4.toNat - 48))
      let m := (m1.toNat - 48) * 10 + (m2.toNat - 48)
      let d := (d1.toNat - 48) * 10 + (d2.toNat - 48)
      if 1 ≤ m ∧ m ≤ 12 ∧ 1 ≤ d ∧ d ≤ 31 then some ⟨y, m, d⟩ else none
    else none
  | _ => none

/-- `validateDateOfBirth(dob)` from `script.js`, parameterised by the current
date.  An unparseable non-empty string makes both JS comparisons false, so it
returns no error. -/
def validateDateOfBirth (today : CalDate) (dob : List Char) : Option String :=
  if dob = [] then some "Required field is empty"
  else
    match parseDate dob with
    | none => none
    | some dd =>
      if dateLt today dd = true then some "Cannot be in the future"
      else if dateLt dd (age120 today) = true then some "Cannot be more than 120 years ago"
      else none

/-- State of the SSN masking machine: the global variables `ssnActualValue`
and `lastSSNMaskedLength`, plus the text currently displayed in the field
(`input.value`). -/
structure SSNState where
  ssnActualValue : List Char
  lastSSNMaskedLength : Nat
  display : List Char
deriving DecidableEq

/-- Loop body of the mask computation in `formatSSN`: one `X` per digit, a
dash appended after the characters at indices 2 and 4. -/
def ssnMaskGo : Nat → List Char → List Char
  | _, [] => []
  | i, _ :: t => 'X' :: ((if i = 2 ∨ i = 4 then ['-'] else []) ++ ssnMaskGo (i + 1) t)

/-- The masked display computed by `formatSSN` for a given digit sequence. -/
def ssnMask (ssn : List Char) : List Char := ssnMaskGo 0 ssn

/-- Modelled from the spec's words (section 4.1), for comparison with
`ssnMask`: "each digit becomes the literal character 'X'; insert a separator
after position index 2 and after position index 4", as a function of the
number of stored digits alone. -/
def maskSpec (n : Nat) : List Char :=
  ((List.range n).map (fun i => 'X' :: (if i = 2 ∨ i = 4 then ['-'] else []))).flatten

/-- `formatSSN(input)` from `script.js`.  `currentValue` is the text found in
the field when the input event fires (the user's edit of the displayed
string). -/
def formatSSN (s : SSNState) (currentValue : List Char) : SSNState :=
  let currentLength := currentValue.length
  let ssn1 :=
    if s.lastSSNMaskedLength < currentLength then
      let newChar := currentValue.getD (currentLength - 1) (Char.ofNat 0)
      if isDigitCh newChar = true then
        if s.ssnActualValue.length < 9 then s.ssnActualValue ++ [newChar]
        else s.ssnActualValue
      else s.ssnActualValue
    else if currentLength < s.lastSSNMaskedLength then
      s.ssnActualValue.dropLast
    else s.ssnActualValue
  { ssnActualValue := ssn1,
    lastSSNMaskedLength := (ssnMask ssn1).length,
    display := ssnMask ssn1 }

/-- The machine's state at form-session start: empty secret, empty field. -/
def initSSN : SSNState := ⟨[], 0, []⟩

/-- Processing a sequence of input events with `formatSSN`. -/
def runSSN (s : SSNState) (events : List (List Char)) : SSNState :=
  events.foldl formatSSN s

/-- Typing digits one at a time at the end of the field: each event presents
the previous display with one character appended. -/
def typeDigits (s : SSNState) : List Char → SSNState
  | [] => s
  | d :: ds => typeDigits (formatSSN s (s.display ++ [d])) ds

/-- The capped append performed by the typing branch of `formatSSN`. -/
def capAppend (acc : List Char) (d : Char) : List Char :=
  if acc.length < 9 then acc ++ [d] else acc

/-- Reachability invariant of the masking machine. -/
def ssnInv (s : SSNState) : Prop :=
  (∀ c ∈ s.ssnActualValue, isDigitCh c = true) ∧
  s.ssnActualValue.length ≤ 9 ∧
  s.display = ssnMask s.ssnActualValue ∧
  s.lastSSNMaskedLength = s.display.length

/-- The field names known to the validation engine (the cases of
`validateSingleField`'s switch). -/
inductive FieldName where
  | firstName | middleInitial | lastName | dateOfBirth | socialSecurity
  | gender | isVaccinated | hasInsurance
  | addressLine1 | addressLine2 | city | state | zipCode
  | emailAddress | phoneNumber | emergencyContact | emergencyPhone
  | insuranceProvider | physicianName | pharmacyName | policyNumber
  | desiredUserID | password | confirmPassword
deriving DecidableEq

/-- `/^[A-Za-z'\-]{1,30}$/` (first name). -/
def firstNameOk (v : List Char) : Bool :=
  decide (1 ≤ v.length ∧ v.length ≤ 30) &&
  v.all (fun c => isAlphaCh c || c == Char.ofNat 39 || c == '-')

/-- `/^[A-Za-z]?$/` (middle initial). -/
def middleInitialOk (v : List Char) : Bool :=
  decide (v.length ≤ 1) && v.all isAlphaCh

/-- `/^[A-Za-z'\-\s0-9]{1,30}$/` (last name). -/
def lastNameOk (v : List Char) : Bool :=
  decide (1 ≤ v.length ∧ v.length ≤ 30) &&
  v.all (fun c => isAlphaCh c || c == Char.ofNat 39 || c == '-' || isSpaceJS c || isDigitCh c)

/-- `/^\d{9}$/` (social security number). -/
def ssnOk (v : List Char) : Bool := decide (v.length = 9) && v.all isDigitCh

/-- `/^[A-Za-z\s]{2,30}$/` (city). -/
def cityOk (v : List Char) : Bool :=
  decide (2 ≤ v.length ∧ v.length ≤ 30) && v.all (fun c => isAlphaCh c || isSpaceJS c)

/-- `/^\d{5}$/` (zip code). -/
def zipOk (v : List Char) : Bool := decide (v.length = 5) && v.all isDigitCh

/-- Local-part character class of the email regex: `[a-zA-Z0-9._%+\-]`. -/
def isLocalCh (c : Char) : Bool :=
  isAlphaCh c || isDigitCh c || c == '.' || c == '_' || c == '%' || c == '+' || c == '-'

/-- Domain character class of the email regex: `[a-zA-Z0-9.\-]`. -/
def isDomainCh (c : Char) : Bool := isAlphaCh c || isDigitCh c || c == '.' || c == '-'

/-- `\.[a-zA-Z]{2,}$`: at least two letters after the final matched dot. -/
def tldOk (l : List Char) : Bool := decide (2 ≤ l.length) && l.all isAlphaCh

/-- `[a-zA-Z0-9.\-]+\.[a-zA-Z]{2,}$`: some split of the domain into a
non-empty run of domain characters, a dot, and a TLD. -/
def domainOk (l : List Char) : Bool :=
  (List.range l.length).any (fun i =>
    decide (0 < i) && (l.take i).all isDomainCh &&
    decide (l.getD i (Char.ofNat 0) = '.') && tldOk (l.drop (i + 1)))

/-- `/^[a-zA-Z0-9._%+\-]+@[a-zA-Z0-9.\-]+\.[a-zA-Z]{2,}$/` (email): matches
iff the string splits at an `@` into a non-empty local part and a matching
domain (neither class contains `@`, so the split is the test's semantics). -/
def emailOk (l : List Char) : Bool :=
  (List.range l.length).any (fun i =>
    decide (0 < i) && (l.take i).all isLocalCh &&
    decide (l.getD i (Char.ofNat 0) = '@') && domainOk (l.drop (i + 1)))

/-- `/^\(\d{3}\) \d{3}-\d{4}$/` (phone numbers). -/
def phoneOk : List Char → Bool
  | [a, b, c, d, e, f, g, h, i, j, k, l, m, n] =>
    a == '(' && isDigitCh b && isDigitCh c && isDigitCh d && e == ')' && f == ' ' &&
    isDigitCh g && isDigitCh h && isDigitCh i && j == '-' &&
    isDigitCh k && isDigitCh l && isDigitCh m && isDigitCh n
  | _ => false

/-- `/^[A-Za-z\s]*$/` (emergency contact, insurance provider, physician,
pharmacy). -/
def lettersSpacesOk (v : List Char) : Bool := v.all (fun c => isAlphaCh c || isSpaceJS c)

/-- `/^[A-Za-z0-9]*$/` (policy number). -/
def alnumOk (v : List Char) : Bool := v.all (fun c => isAlphaCh c || isDigitCh c)

/-- `/^[A-Za-z_\-][A-Za-z0-9_\-]{4,29}$/` (desired user ID). -/
def userIdOk : List Char → Bool
  | [] => false
  | c :: rest =>
    (isAlphaCh c || c == '_' || c == '-') &&
    decide (4 ≤ rest.length ∧ rest.length ≤ 29) &&
    rest.all (fun x => isAlphaCh x || isDigitCh x || x == '_' || x == '-')

/-- The host-surface context `validateSingleField` reads besides its two
arguments: whether `document.querySelector` finds the field, whether the
field carries the `required` attribute, the current date, and the field
values fetched through `getFieldValue` (`ssnActualValue` for the SSN
substitution, and the user ID / first name / last name / password used by the
password rules). -/
structure FieldCtx where
  fieldExists : Bool
  required : Bool
  today : CalDate
  ssnActualValue : List Char
  userId : List Char
  firstName : List Char
  lastName : List Char
  password : List Char
deriving DecidableEq

/-- `validateSingleField(fieldName, value)` from `script.js`.  The JS builds
`error` by sequential assignment: the required check runs first and a later
matching switch case overwrites its message. -/
def validateSingleField (ctx : FieldCtx) (fieldName : FieldName) (value0 : List Char) :
    Option String :=
  let value := if fieldName = FieldName.socialSecurity then ctx.ssnActualValue else value0
  let error0 : Option String :=
    if ctx.fieldExists = true ∧ ctx.required = true ∧ value = [] then
      some "Required field is empty"
    else none
  match fieldName with
  | .firstName =>
    if value ≠ [] ∧ firstNameOk value = false then
      some "Enter 1-30 characters, letters, apostrophes, and dashes only"
    else error0
  | .middleInitial =>
    if value ≠ [] ∧ middleInitialOk value = false then
      some "Enter single letter only"
    else error0
  | .lastName =>
    if value ≠ [] ∧ lastNameOk value = false then
      some "Enter 1-30 characters, letters, apostrophes, dashes, spaces, and numbers allowed"
    else error0
  | .dateOfBirth =>
    if value ≠ [] then validateDateOfBirth ctx.today value else error0
  | .socialSecurity =>
    if value ≠ [] ∧ ssnOk value = false then some "Must be exactly 9 digits" else error0
  | .gender | .isVaccinated | .hasInsurance =>
    if value = [] ∧ ctx.fieldExists = true ∧ ctx.required = true then
      some "Required field - please select an option"
    else error0
  | .addressLine1 =>
    if value ≠ [] ∧ (value.length < 2 ∨ 30 < value.length) then
      some "Enter 2-30 characters"
    else error0
  | .addressLine2 =>
    if value ≠ [] ∧ 0 < value.length ∧ (value.length < 2 ∨ 30 < value.length) then
      some "Must be 2-30 characters if entered"
    else error0
  | .city =>
    if value ≠ [] ∧ cityOk value = false then
      some "Enter 2-30 characters, letters and spaces only"
    else error0
  | .state =>
    if value = [] then some "Please select a state" else error0
  | .zipCode =>
    if value ≠ [] ∧ zipOk value = false then some "Must be exactly 5 digits" else error0
  | .emailAddress =>
    if value ≠ [] ∧ emailOk value = false then
      some "Enter valid email: name@domain.tld"
    else error0
  | .phoneNumber =>
    if value ≠ [] ∧ phoneOk value = false then some "Format: (XXX) XXX-XXXX" else error0
  | .emergencyContact =>
    if value ≠ [] ∧ lettersSpacesOk value = false then
      some "Letters and spaces only"
    else error0
  | .emergencyPhone =>
    if value ≠ [] ∧ phoneOk value = false then some "Format: (XXX) XXX-XXXX" else error0
  | .insuranceProvider | .physicianName | .pharmacyName =>
    if value ≠ [] ∧ lettersSpacesOk value = false then
      some "Letters and spaces only"
    else error0
  | .policyNumber =>
    if value ≠ [] ∧ alnumOk value = false then some "Alphanumeric characters only" else error0
  | .desiredUserID =>
    if value ≠ [] ∧ userIdOk value = false then
      some "5-30 characters, letters, numbers, underscore, dash - first character cannot be a number"
    else error0
  | .password =>
    if value ≠ [] then
      if validatePassword value ctx.userId ctx.firstName ctx.lastName ≠ [] then
        some (String.intercalate "; " (validatePassword value ctx.userId ctx.firstName ctx.lastName))
      else error0
    else error0
  | .confirmPassword =>
    if value ≠ [] then
      if value ≠ ctx.password then some "Passwords do not match" else error0
    else error0

/-- The field values `validateForm` reads through `getFieldValue` at submit
time, plus the current date. -/
structure FormValues where
  today : CalDate
  dateOfBirth : List Char
  addressLine2 : List Char
  password : List Char
  desiredUserID : List Char
  firstName : List Char
  lastName : List Char
  confirmPassword : List Char
deriving DecidableEq

/-- The `errors` array built by `validateForm`, in source order. -/
def validateFormErrors (fv : FormValues) : List String :=
  (match validateDateOfBirth fv.today fv.dateOfBirth with
   | some e => ["Date of Birth: " ++ e]
   | none => []) ++
  (if fv.addressLine2 ≠ [] ∧ 0 < fv.addressLine2.length ∧ fv.addressLine2.length < 2 then
    ["Address Line 2: Must be 2-30 characters if entered"] else []) ++
  (if validatePassword fv.password fv.desiredUserID fv.firstName fv.lastName ≠ [] then
    ["Password: " ++ String.intercalate ", "
      (validatePassword fv.password fv.desiredUserID fv.firstName fv.lastName)]
   else []) ++
  (if fv.password ≠ fv.confirmPassword then ["Passwords do not match"] else [])

/-- The observable outcome of the submit handler: its return value, whether
`event.preventDefault()` was called, and the `alert` text if one was shown. -/
structure SubmitResult where
  returnValue : Bool
  preventedDefault : Bool
  alertShown : Option String
deriving DecidableEq

/-- `validateForm(event)` from `script.js`. -/
def validateForm (fv : FormValues) : SubmitResult :=
  if validateFormErrors fv ≠ [] then
    { returnValue := false, preventedDefault := true,
      alertShown := some ("Please correct the following errors:\n\n" ++
        String.intercalate "\n" (validateFormErrors fv)) }
  else { returnValue := true, preventedDefault := false, alertShown := none }

/-- The `requiredFields` list of `areAllRequiredFieldsFilled`. -/
def requiredFields : List FieldName :=
  [.firstName, .lastName, .dateOfBirth, .socialSecurity, .gender, .addressLine1,
   .city, .state, .zipCode, .emailAddress, .phoneNumber, .isVaccinated,
   .hasInsurance, .desiredUserID, .password, .confirmPassword]

/-- `areAllRequiredFieldsFilled()` from `script.js`, over an abstract
valuation of `getFieldValue`. -/
def areAllRequiredFieldsFilled (getVal : FieldName → List Char) : Bool :=
  requiredFields.all (fun f =>
    !(decide (getVal f = []) || decide (jsTrim (getVal f) = [])))

/-- `Object.keys(validationErrors).filter(key => validationErrors[key]).length`:
the number of entries whose message is truthy. -/
def errorCountOf (errs : List (FieldName × String)) : Nat :=
  (errs.filter (fun kv => decide (kv.2 ≠ ""))).length

/-- `${errorCount} validation error${errorCount !== 1 ? 's' : ''} remaining` -/
def countMsgFor (n : Nat) : String :=
  Nat.repr n ++ " validation error" ++ (if n ≠ 1 then "s" else "") ++ " remaining"

/-- Counter text shown while some required field is missing. -/
def promptMsg : String :=
  "Fill out all required fields and click VALIDATE to check for errors"

/-- Counter text shown when everything passes. -/
def allClearMsg : String := "All validations passed! You can now submit the form."

/-- Derived UI state written by `updateErrorCounter`. -/
structure CounterUI where
  text : String
  submitShown : Bool
  validateShown : Bool
deriving DecidableEq

/-- `updateErrorCounter()` from `script.js`: the counter text and the two
button visibilities, as functions of the error count and the
all-required-filled predicate. -/
def updateErrorCounter (errorCount : Nat) (allRequiredFilled : Bool) : CounterUI :=
  { text :=
      if 0 < errorCount then countMsgFor errorCount
      else if allRequiredFilled = false then promptMsg
      else allClearMsg,
    submitShown := if errorCount = 0 ∧ allRequiredFilled = true then true else false,
    validateShown := if errorCount = 0 ∧ allRequiredFilled = true then false else true }

/-- A per-field error indicator element: its text and visibility. -/
structure ErrElem where
  text : String
  visible : Bool
deriving DecidableEq

/-- The mutable state touched by `showFieldError`: the `validationErrors`
table, the touch tracker (with the `__validateAll__` sentinel split out), the
per-field error elements, the fields carrying the `has-error` class, and the
counter UI last written by `updateErrorCounter`.  JS object insertion order
is modelled by association lists updated in place or appended. -/
structure UIState where
  validationErrors : List (FieldName × String)
  fieldTouched : List FieldName
  validateAllTouched : Bool
  errorElems : List (FieldName × ErrElem)
  hasErrorCls : List FieldName
  counter : CounterUI
deriving DecidableEq

/-- Insert-or-update in an association list (JS object assignment). -/
def setAssoc (l : List (FieldName × String)) (f : FieldName) (m : String) :
    List (FieldName × String) :=
  if (l.lookup f).isSome then l.map (fun kv => if kv.1 = f then (f, m) else kv)
  else l ++ [(f, m)]

/-- Update an error element in place. -/
def setElem (l : List (FieldName × ErrElem)) (f : FieldName) (e : ErrElem) :
    List (FieldName × ErrElem) :=
  l.map (fun kv => if kv.1 = f then (f, e) else kv)

/-- Hide an error element, keeping its text (the JS only sets
`style.display = 'none'`). -/
def hideElem (l : List (FieldName × ErrElem)) (f : FieldName) :
    List (FieldName × ErrElem) :=
  l.map (fun kv => if kv.1 = f then (kv.1, { kv.2 with visible := false }) else kv)

/-- `showFieldError(fieldName, errorMessage)` from `script.js`, over the
abstract state.  `fieldExists` models the `document.querySelector` lookup and
`getVal` the valuation read by the nested `updateErrorCounter` call. -/
def showFieldError (fieldExists : Bool) (getVal : FieldName → List Char)
    (st : UIState) (f : FieldName) (msg : Option String) : UIState :=
  if fieldExists = false then st
  else if f ∉ st.fieldTouched ∧ st.validateAllTouched = false then st
  else
    let elems0 :=
      if (st.errorElems.lookup f).isSome then st.errorElems
      else st.errorElems ++ [(f, ⟨"", false⟩)]
    let m := msg.getD ""
    let st1 :=
      if m ≠ "" then
        { st with
          errorElems := setElem elems0 f ⟨m, true⟩,
          hasErrorCls := if f ∈ st.hasErrorCls then st.hasErrorCls else st.hasErrorCls ++ [f],
          validationErrors := setAssoc st.validationErrors f m }
      else
        { st with
          errorElems := hideElem elems0 f,
          hasErrorCls := st.hasErrorCls.filter (fun g => decide (g ≠ f)),
          validationErrors := st.validationErrors.filter (fun kv => decide (kv.1 ≠ f)) }
    { st1 with
      counter := updateErrorCounter (errorCountOf st1.validationErrors)
        (areAllRequiredFieldsFilled getVal) }

/-- A concrete context with every companion value empty and the field present
and required (today is 2026-10-11). -/
def ctxReq : FieldCtx :=
  { fieldExists := true, required := true, today := ⟨2026, 10, 11⟩,
    ssnActualValue := [], userId := [], firstName := [], lastName := [], password := [] }

/-- Like `ctxReq` but with the field not required. -/
def ctxOpt : FieldCtx := { ctxReq with required := false }

/-- Submit-time values: everything empty except a valid date of birth and the
password pair set to `abcdefgh`. -/
def fvPw : FormValues :=
  { today := ⟨2026, 10, 11⟩, dateOfBirth := "2000-01-01".toList, addressLine2 := [],
    password := "abcdefgh".toList, desiredUserID := [], firstName := [], lastName := [],
    confirmPassword := "abcdefgh".toList }

/-- Submit-time values with every field empty. -/
def fvEmpty : FormValues :=
  { today := ⟨2026, 10, 11⟩, dateOfBirth := [], addressLine2 := [], password := [],
    desiredUserID := [], firstName := [], lastName := [], confirmPassword := [] }

/-- The message `validateSingleField` reports for a required empty field:
`Required field is empty` except for the radio groups and the state
selector, whose switch cases overwrite it. -/
def emptyRequiredMsg : FieldName → String
  | .gender | .isVaccinated | .hasInsurance => "Required field - please select an option"
  | .state => "Please select a state"
  | _ => "Required field is empty"

lemma getD_concat (l : List Char) (d dflt : Char) :
    (l ++ [d]).getD l.length dflt = d := by
  induction l with
  | nil => rfl
  | cons a t ih =>
    rw [List.cons_append, List.length_cons, List.getD_cons_succ]
    exact ih

lemma formatSSN_append_digit (s : SSNState) (d : Char)
    (h2 : s.lastSSNMaskedLength = s.display.length) (hd : isDigitCh d = true) :
    formatSSN s (s.display ++ [d]) =
      { ssnActualValue := capAppend s.ssnActualValue d,
        lastSSNMaskedLength := (ssnMask (capAppend s.ssnActualValue d)).length,
        display := ssnMask (capAppend s.ssnActualValue d) } := by
  have hlen : (s.display ++ [d]).length = s.display.length + 1 := by simp
  have hlt : s.lastSSNMaskedLength < (s.display ++ [d]).length := by omega
  have hg : (s.display ++ [d]).getD ((s.display ++ [d]).length - 1) (Char.ofNat 0) = d := by
    rw [hlen, Nat.add_sub_cancel, getD_concat]
  unfold formatSSN capAppend
  simp only [hlt, if_pos, hg, hd, if_true]

lemma typeDigits_go (ds : List Char) : ∀ s : SSNState,
    s.lastSSNMaskedLength = s.display.length →
    (∀ c ∈ ds, isDigitCh c = true) →
    (typeDigits s ds).ssnActualValue = ds.foldl capAppend s.ssnActualValue := by
  induction ds with
  | nil => intro s _ _; rfl
  | cons d ds ih =>
    intro s h1 h2
    show (typeDigits (formatSSN s (s.display ++ [d])) ds).ssnActualValue = _
    rw [formatSSN_append_digit s d h1 (h2 d (by simp)), List.foldl_cons]
    exact ih _ rfl (fun c hc => h2 c (by simp [hc]))

lemma capFold (ds : List Char) : ∀ acc : List Char, acc.length ≤ 9 →
    ds.foldl capAppend acc = (acc ++ ds).take 9 := by
  induction ds with
  | nil =>
    intro acc h
    simp [List.take_of_length_le h]
  | cons d ds ih =>
    intro acc h
    rw [List.foldl_cons]
    by_cases hl : acc.length < 9
    · rw [capAppend, if_pos hl, ih (acc ++ [d]) (by simp; omega)]
      simp
    · have h9 : acc.length = 9 := le_antisymm h (not_lt.mp hl)
      rw [capAppend, if_neg hl, ih acc h, ← h9, List.take_left, List.take_left]

/-- Claim C1: appending digits one at a time at the end of the identification
number field stores exactly the typed digit sequence in `ssnActualValue`
(capped at 9: a digit typed when 9 digits are stored is not appended). -/
theorem claim_C1 (ds : List Char) (hd : ∀ c ∈ ds, isDigitCh c = true) :
    (typeDigits initSSN ds).ssnActualValue = ds.take 9 ∧
    (ds.length ≤ 9 → (typeDigits initSSN ds).ssnActualValue = ds) := by
  have h : (typeDigits initSSN ds).ssnActualValue = ([] ++ ds).take 9 := by
    rw [typeDigits_go ds initSSN rfl hd]
    exact capFold ds [] (by simp)
  rw [List.nil_append] at h
  exact ⟨h, fun hlen => h.trans (List.take_of_length_le hlen)⟩

theorem claim_C1_witness :
    (∀ c ∈ "1234567890".toList, isDigitCh c = true) ∧
    (typeDigits initSSN "1234567890".toList).ssnActualValue = "123456789".toList ∧
    (typeDigits initSSN "12345".toList).ssnActualValue = "12345".toList :=
  ⟨by decide,
   (claim_C1 "1234567890".toList (by decide)).1.trans (by decide),
   (claim_C1 "12345".toList (by decide)).2 (by decide)⟩

lemma ssnMaskGo_eq (l : List Char) : ∀ i : Nat,
    ssnMaskGo i l = ((List.range' i l.length).map
      (fun j => 'X' :: (if j = 2 ∨ j = 4 then ['-'] else []))).flatten := by
  induction l with
  | nil => intro i; rfl
  | cons c t ih =>
    intro i
    rw [List.length_cons, List.range'_succ, List.map_cons, List.flatten_cons]
    simp only [ssnMaskGo, ih (i + 1), List.cons_append]

lemma ssnMask_eq_maskSpec (l : List Char) : ssnMask l = maskSpec l.length := by
  rw [ssnMask, maskSpec, ssnMaskGo_eq l 0, List.range_eq_range']

/-- Claim C6: the display written back by `formatSSN` is a function of the
stored digit count alone: one `X` per digit with a dash after indices 2 and 4
(`XXX-XX-XXXX` when all 9 digits are present). -/
theorem claim_C6 :
    (∀ (s : SSNState) (v : List Char),
      (formatSSN s v).display = maskSpec (formatSSN s v).ssnActualValue.length) ∧
    (∀ l : List Char, ssnMask l = maskSpec l.length) ∧
    (∀ l1 l2 : List Char, l1.length = l2.length → ssnMask l1 = ssnMask l2) ∧
    maskSpec 9 = "XXX-XX-XXXX".toList := by
  refine ⟨fun s v => ssnMask_eq_maskSpec _, ssnMask_eq_maskSpec, fun l1 l2 h => ?_, by decide⟩
  rw [ssnMask_eq_maskSpec, ssnMask_eq_maskSpec, h]

theorem claim_C6_witness : ssnMask "ab".toList = ssnMask "12".toList :=
  claim_C6.2.2.1 "ab".toList "12".toList (by decide)

lemma formatSSN_cases (s : SSNState) (v : List Char) :
    (formatSSN s v).ssnActualValue = s.ssnActualValue ∨
    (∃ c, isDigitCh c = true ∧ s.ssnActualValue.length < 9 ∧
      (formatSSN s v).ssnActualValue = s.ssnActualValue ++ [c]) ∨
    (formatSSN s v).ssnActualValue = s.ssnActualValue.dropLast := by
  unfold formatSSN
  dsimp only
  split_ifs with h1 h2 h3 h4
  · exact Or.inr (Or.inl ⟨_, h2, h3, rfl⟩)
  · exact Or.inl rfl
  · exact Or.inl rfl
  · exact Or.inr (Or.inr rfl)
  · exact Or.inl rfl

lemma formatSSN_inv (s : SSNState) (v : List Char) (h : ssnInv s) :
    ssnInv (formatSSN s v) := by
  obtain ⟨hdig, hlen, _, _⟩ := h
  refine ⟨?_, ?_, rfl, rfl⟩
  · rcases formatSSN_cases s v with hc | ⟨c, hcd, _, hc⟩ | hc <;> rw [hc]
    · exact hdig
    · intro x hx
      rcases List.mem_append.mp hx with hx | hx
      · exact hdig x hx
      · rw [List.mem_singleton.mp hx]; exact hcd
    · exact fun x hx => hdig x (List.dropLast_subset _ hx)
  · rcases formatSSN_cases s v with hc | ⟨c, _, hlt, hc⟩ | hc <;> rw [hc]
    · exact hlen
    · simp only [List.length_append, List.length_singleton]; omega
    · rw [List.length_dropLast]; omega

lemma initSSN_inv : ssnInv initSSN :=
  ⟨by simp [initSSN], by simp [initSSN], rfl, rfl⟩

lemma runSSN_inv (evs : List (List Char)) : ∀ s : SSNState, ssnInv s →
    ssnInv (runSSN s evs) := by
  induction evs with
  | nil => exact fun s h => h
  | cons v evs ih =>
    intro s h
    exact ih (formatSSN s v) (formatSSN_inv s v h)

lemma ssn_ne_mask (l : List Char) (hdig : ∀ c ∈ l, isDigitCh c = true)
    (hne : l ≠ []) : l ≠ ssnMask l := by
  cases l with
  | nil => exact absurd rfl hne
  | cons c t =>
    intro heq
    have hc := hdig c (by simp)
    simp only [ssnMask, ssnMaskGo, List.cons.injEq] at heq
    rw [heq.1] at hc
    exact absurd hc (by decide)

/-- Claim C9: from the empty initial state, after any sequence of `formatSSN`
events the secret value is all digits, has length at most 9, and (while
non-empty) differs from the masked display written to the field. -/
theorem claim_C9 (evs : List (List Char)) :
    (runSSN initSSN evs).ssnActualValue.all isDigitCh = true ∧
    (runSSN initSSN evs).ssnActualValue.length ≤ 9 ∧
    ((runSSN initSSN evs).ssnActualValue ≠ [] →
      (runSSN initSSN evs).ssnActualValue ≠ (runSSN initSSN evs).display) := by
  obtain ⟨hdig, hlen, hdisp, _⟩ := runSSN_inv evs initSSN initSSN_inv
  refine ⟨List.all_eq_true.mpr hdig, hlen, fun hne => ?_⟩
  rw [hdisp]
  exact ssn_ne_mask _ hdig hne

theorem claim_C9_witness :
    (runSSN initSSN [['1']]).ssnActualValue ≠ (runSSN initSSN [['1']]).display :=
  (claim_C9 [['1']]).2.2 (by decide)

/-- Claim C5: when the displayed text shrinks by one character (at whatever
position the edit happened), `formatSSN` removes exactly one digit from the
secret value, namely the last one. -/
theorem claim_C5 (s : SSNState) (v : List Char)
    (hdisp : s.display = ssnMask s.ssnActualValue)
    (hlast : s.lastSSNMaskedLength = s.display.length)
    (hshrink : v.length + 1 = s.lastSSNMaskedLength) :
    (formatSSN s v).ssnActualValue = s.ssnActualValue.dropLast ∧
    ∃ c, s.ssnActualValue = (formatSSN s v).ssnActualValue ++ [c] := by
  have hne : s.ssnActualValue ≠ [] := by
    intro h0
    rw [h0] at hdisp
    simp only [ssnMask, ssnMaskGo] at hdisp
    rw [hdisp] at hlast
    simp at hlast
    omega
  have hbr : (formatSSN s v).ssnActualValue = s.ssnActualValue.dropLast := by
    have h1 : ¬ (s.lastSSNMaskedLength < v.length) := by omega
    have h2 : v.length < s.lastSSNMaskedLength := by omega
    unfold formatSSN
    dsimp only
    rw [if_neg h1, if_pos h2]
  refine ⟨hbr, s.ssnActualValue.getLast hne, ?_⟩
  rw [hbr]
  exact (List.dropLast_append_getLast hne).symm

theorem claim_C5_witness :
    (formatSSN ⟨['1', '2'], 2, ['X', 'X']⟩ ['X']).ssnActualValue = ['1'] ∧
    ∃ c, (['1', '2'] : List Char) =
      (formatSSN ⟨['1', '2'], 2, ['X', 'X']⟩ ['X']).ssnActualValue ++ [c] := by
  have h := claim_C5 ⟨['1', '2'], 2, ['X', 'X']⟩ ['X'] (by decide) rfl rfl
  exact ⟨h.1.trans (by decide), h.2⟩

/-- Claim C4: `validateDateOfBirth` reports the required-empty message on the
empty string, the future message for any parsed date strictly after the
current date, the 120-years message for any parsed date strictly before
today minus 120 years, and no error otherwise (dates are compared at day
granularity). -/
theorem claim_C4 (today : CalDate) :
    validateDateOfBirth today [] = some "Required field is empty" ∧
    (∀ dob d, parseDate dob = some d → dateLt today d = true →
      validateDateOfBirth today dob = some "Cannot be in the future") ∧
    (∀ dob d, parseDate dob = some d → dateLt today d = false →
      dateLt d (age120 today) = true →
      validateDateOfBirth today dob = some "Cannot be more than 120 years ago") ∧
    (∀ dob d, parseDate dob = some d → dateLt today d = false →
      dateLt d (age120 today) = false →
      validateDateOfBirth today dob = none) := by
  refine ⟨rfl, ?_, ?_, ?_⟩
  · intro dob d hp h1
    have hne : dob ≠ [] := fun h => by rw [h] at hp; exact Option.noConfusion hp
    simp [validateDateOfBirth, hne, hp, h1]
  · intro dob d hp h1 h2
    have hne : dob ≠ [] := fun h => by rw [h] at hp; exact Option.noConfusion hp
    simp [validateDateOfBirth, hne, hp, h1, h2]
  · intro dob d hp h1 h2
    have hne : dob ≠ [] := fun h => by rw [h] at hp; exact Option.noConfusion hp
    simp [validateDateOfBirth, hne, hp, h1, h2]

theorem claim_C4_witness :
    validateDateOfBirth ⟨2026, 10, 11⟩ [] = some "Required field is empty" ∧
    validateDateOfBirth ⟨2026, 10, 11⟩ "2999-01-01".toList = some "Cannot be in the future" ∧
    validateDateOfBirth ⟨2026, 10, 11⟩ "1905-10-11".toList =
      some "Cannot be more than 120 years ago" ∧
    validateDateOfBirth ⟨2026, 10, 11⟩ "1906-10-12".toList = none := by
  obtain ⟨h0, h1, h2, h3⟩ := claim_C4 ⟨2026, 10, 11⟩
  exact ⟨h0,
    h1 _ ⟨2999, 1, 1⟩ (by decide) (by decide),
    h2 _ ⟨1905, 10, 11⟩ (by decide) (by decide) (by decide),
    h3 _ ⟨1906, 10, 12⟩ (by decide) (by decide) (by decide)⟩

/-- Claim C2: for the password `abcdefgh` (no digit, uppercase or special
character), `validatePassword` returns all missing-class violations; the
single-field path joins them with `"; "` and the submit-time path with
`", "`; and in general every violated sub-rule's message is collected. -/
theorem claim_C2 :
    validatePassword "abcdefgh".toList [] [] [] =
      ["Must contain 1 uppercase letter", "Must contain 1 digit",
       "Must contain 1 special character"] ∧
    validateSingleField ctxReq FieldName.password "abcdefgh".toList =
      some "Must contain 1 uppercase letter; Must contain 1 digit; Must contain 1 special character" ∧
    validateFormErrors fvPw =
      ["Password: Must contain 1 uppercase letter, Must contain 1 digit, Must contain 1 special character"] ∧
    (∀ p u f l : List Char,
      ((p.length < 8 ∨ 30 < p.length) →
        "Must be 8-30 characters" ∈ validatePassword p u f l) ∧
      (hasUpper p = false → "Must contain 1 uppercase letter" ∈ validatePassword p u f l) ∧
      (hasLower p = false → "Must contain 1 lowercase letter" ∈ validatePassword p u f l) ∧
      (hasDigit p = false → "Must contain 1 digit" ∈ validatePassword p u f l) ∧
      (hasSpecial p = false → "Must contain 1 special character" ∈ validatePassword p u f l) ∧
      (hasQuote p = true → "Cannot contain quotes" ∈ validatePassword p u f l) ∧
      (u ≠ [] ∧ jsIncludes (lowerStr p) (lowerStr u) = true →
        "Cannot contain User ID" ∈ validatePassword p u f l) ∧
      (f ≠ [] ∧ jsIncludes (lowerStr p) (lowerStr f) = true →
        "Cannot contain first name" ∈ validatePassword p u f l) ∧
      (l ≠ [] ∧ jsIncludes (lowerStr p) (lowerStr l) = true →
        "Cannot contain last name" ∈ validatePassword p u f l)) := by
  refine ⟨by decide, by decide, by decide, ?_⟩
  intro p u f l
  refine ⟨fun h => ?_, fun h => ?_, fun h => ?_, fun h => ?_, fun h => ?_,
    fun h => ?_, fun h => ?_, fun h => ?_, fun h => ?_⟩ <;>
  simp [validatePassword, h, List.mem_append]

theorem claim_C2_witness :
    hasDigit "abcdefgh".toList = false ∧
    "Must contain 1 digit" ∈ validatePassword "abcdefgh".toList [] [] [] :=
  ⟨by decide, (claim_C2.2.2.2 "abcdefgh".toList [] [] []).2.2.2.1 (by decide)⟩

/-- Claim C3 counterexample: for the `state` field the switch case overwrites
the required-empty message (`Please select a state` instead of `Required
field is empty`), and an optional empty `state` is not valid; the radio
field `gender` likewise reports a different message. -/
theorem claim_C3_counterexample :
    validateSingleField ctxReq FieldName.state [] = some "Please select a state" ∧
    validateSingleField ctxReq FieldName.state [] ≠ some "Required field is empty" ∧
    validateSingleField ctxOpt FieldName.state [] ≠ none ∧
    validateSingleField ctxReq FieldName.gender [] =
      some "Required field - please select an option" := by
  decide

/-- Claim C3 (amended): for an existing field whose effective value is empty,
`validateSingleField` reports `Required field is empty` when the field is
required — except the radio groups (gender, vaccination, insurance status),
which report `Required field - please select an option`, and `state`, which
reports `Please select a state` — and reports no error when the field is
optional, except `state`, which reports `Please select a state` even then;
no format-specific rule fires on an empty value. -/
theorem claim_C3_amended (ctx : FieldCtx) (f : FieldName) (v : List Char)
    (hE : ctx.fieldExists = true)
    (hv : (if f = FieldName.socialSecurity then ctx.ssnActualValue else v) = []) :
    (ctx.required = true → validateSingleField ctx f v = some (emptyRequiredMsg f)) ∧
    (ctx.required = false → validateSingleField ctx f v =
      if f = FieldName.state then some "Please select a state" else none) := by
  constructor <;> intro hr <;> cases f <;> simp_all [validateSingleField, emptyRequiredMsg]

theorem claim_C3_amended_witness :
    validateSingleField ctxReq FieldName.emailAddress [] = some "Required field is empty" :=
  (claim_C3_amended ctxReq FieldName.emailAddress [] rfl (by decide)).1 rfl

lemma validateFormErrors_eq_nil (fv : FormValues) :
    validateFormErrors fv = [] ↔
      (validateDateOfBirth fv.today fv.dateOfBirth = none ∧
       ¬(fv.addressLine2 ≠ [] ∧ 0 < fv.addressLine2.length ∧ fv.addressLine2.length < 2) ∧
       validatePassword fv.password fv.desiredUserID fv.firstName fv.lastName = [] ∧
       fv.password = fv.confirmPassword) := by
  unfold validateFormErrors
  cases hdob : validateDateOfBirth fv.today fv.dateOfBirth <;> split_ifs <;> simp_all

/-- Claim C7: `validateForm` suppresses the event default and returns `false`
exactly when the submit-time validation pass finds errors, showing the
aggregated ordered list; otherwise it returns `true` without preventing
submission.  The last conjunct characterises when errors exist in terms of
the individual submit-time checks. -/
theorem claim_C7 (fv : FormValues) :
    ((validateForm fv).returnValue = false ∧ (validateForm fv).preventedDefault = true ↔
      validateFormErrors fv ≠ []) ∧
    (validateFormErrors fv ≠ [] → (validateForm fv).alertShown =
      some ("Please correct the following errors:\n\n" ++
        String.intercalate "\n" (validateFormErrors fv))) ∧
    (validateFormErrors fv = [] →
      validateForm fv = ⟨true, false, none⟩) ∧
    (validateFormErrors fv ≠ [] ↔
      (validateDateOfBirth fv.today fv.dateOfBirth ≠ none ∨
       (fv.addressLine2 ≠ [] ∧ fv.addressLine2.length < 2) ∨
       validatePassword fv.password fv.desiredUserID fv.firstName fv.lastName ≠ [] ∨
       fv.password ≠ fv.confirmPassword)) := by
  refine ⟨?_, ?_, ?_, ?_⟩
  · by_cases h : validateFormErrors fv = [] <;> simp [validateForm, h]
  · intro h; simp [validateForm, h]
  · intro h; simp [validateForm, h]
  · rw [Ne, validateFormErrors_eq_nil]
    have hlp : 0 < fv.addressLine2.length ↔ fv.addressLine2 ≠ [] := List.length_pos
    tauto

theorem claim_C7_witness :
    (validateForm fvEmpty).returnValue = false ∧
    (validateForm fvEmpty).preventedDefault = true :=
  (claim_C7 fvEmpty).1.mpr (by decide)

lemma filled_iff (getVal : FieldName → List Char) :
    areAllRequiredFieldsFilled getVal = true ↔
      ∀ f ∈ requiredFields, jsTrim (getVal f) ≠ [] := by
  unfold areAllRequiredFieldsFilled
  rw [List.all_eq_true]
  constructor
  · intro h f hf ht
    have h2 := h f hf
    simp only [Bool.not_eq_true', Bool.or_eq_false_iff, decide_eq_false_iff_not] at h2
    exact h2.2 ht
  · intro h f hf
    have hne := h f hf
    have hv : getVal f ≠ [] := fun h0 => hne (by rw [h0]; rfl)
    simp [hv, hne]

lemma strData (s t : String) : (s ++ t).data = s.data ++ t.data := String.data_append s t

lemma countMsg_last (n : Nat) : (countMsgFor n).data.getLast? = some 'g' := by
  unfold countMsgFor
  rw [strData, List.getLast?_append_of_ne_nil _ (by decide)]
  decide

lemma countMsg_ne_prompt (n : Nat) : countMsgFor n ≠ promptMsg := by
  intro h
  have h1 := countMsg_last n
  rw [h] at h1
  exact absurd h1 (by decide)

lemma countMsg_ne_allClear (n : Nat) : countMsgFor n ≠ allClearMsg := by
  intro h
  have h1 := countMsg_last n
  rw [h] at h1
  exact absurd h1 (by decide)

lemma uec_submit (c : Nat) (b : Bool) :
    (updateErrorCounter c b).submitShown = true ↔ (c = 0 ∧ b = true) := by
  unfold updateErrorCounter
  dsimp only
  split_ifs with h <;> simp [h]

lemma uec_validate (c : Nat) (b : Bool) :
    (updateErrorCounter c b).validateShown = !(updateErrorCounter c b).submitShown := by
  unfold updateErrorCounter
  dsimp only
  split_ifs <;> rfl

lemma uec_text (c : Nat) (b : Bool) :
    (updateErrorCounter c b).text =
      if 0 < c then countMsgFor c else if b = false then promptMsg else allClearMsg := rfl

/-- Claim C8: the submit affordance is shown iff the error count is 0 and
every required field is non-empty after trimming; the validate affordance is
its complement; and the counter text is one of three mutually distinct
messages selected by the pair (error count, all-required-filled). -/
theorem claim_C8 (errs : List (FieldName × String)) (getVal : FieldName → List Char) :
    ((updateErrorCounter (errorCountOf errs) (areAllRequiredFieldsFilled getVal)).submitShown
        = true ↔
      (errorCountOf errs = 0 ∧ ∀ f ∈ requiredFields, jsTrim (getVal f) ≠ [])) ∧
    ((updateErrorCounter (errorCountOf errs) (areAllRequiredFieldsFilled getVal)).validateShown
        = !(updateErrorCounter (errorCountOf errs)
            (areAllRequiredFieldsFilled getVal)).submitShown) ∧
    (0 < errorCountOf errs →
      (updateErrorCounter (errorCountOf errs) (areAllRequiredFieldsFilled getVal)).text
        = countMsgFor (errorCountOf errs)) ∧
    (errorCountOf errs = 0 → areAllRequiredFieldsFilled getVal = false →
      (updateErrorCounter (errorCountOf errs) (areAllRequiredFieldsFilled getVal)).text
        = promptMsg) ∧
    (errorCountOf errs = 0 → areAllRequiredFieldsFilled getVal = true →
      (updateErrorCounter (errorCountOf errs) (areAllRequiredFieldsFilled getVal)).text
        = allClearMsg) ∧
    (∀ n : Nat, countMsgFor n ≠ promptMsg ∧ countMsgFor n ≠ allClearMsg) ∧
    promptMsg ≠ allClearMsg := by
  refine ⟨?_, uec_validate _ _, ?_, ?_, ?_, fun n => ⟨countMsg_ne_prompt n, countMsg_ne_allClear n⟩,
    by decide⟩
  · rw [uec_submit, filled_iff]
  · intro h
    rw [uec_text]
    simp [h]
  · intro h hf
    rw [uec_text]
    simp [h, hf]
  · intro h hf
    rw [uec_text]
    simp [h, hf]

theorem claim_C8_witness :
    (updateErrorCounter (errorCountOf [])
      (areAllRequiredFieldsFilled (fun _ => ['a']))).submitShown = true :=
  (claim_C8 [] (fun _ => ['a'])).1.mpr ⟨rfl, by decide⟩

/-- Claim C10: for an untouched field while the bulk-validate sentinel is
unset, `showFieldError` is a complete no-op: the error table, the error
element, the visual error class and the counter are all unchanged. -/
theorem claim_C10 (e : Bool) (getVal : FieldName → List Char) (st : UIState)
    (f : FieldName) (m : Option String)
    (h1 : f ∉ st.fieldTouched) (h2 : st.validateAllTouched = false) :
    showFieldError e getVal st f m = st := by
  by_cases he : e = false
  · simp [showFieldError, he]
  · simp [showFieldError, he, h1, h2]

theorem claim_C10_witness :
    showFieldError true (fun _ => []) ⟨[], [], false, [], [], ⟨"", false, false⟩⟩
      FieldName.city (some "x") = ⟨[], [], false, [], [], ⟨"", false, false⟩⟩ :=
  claim_C10 true (fun _ => []) ⟨[], [], false, [], [], ⟨"", false, false⟩⟩
    FieldName.city (some "x") (by simp) rfl
